import Mathlib

/-!
Verification of the evaluation orchestration core of the AI chat evaluator
(`services/evaluator` module: `evaluateChat`, `evaluateWithKRuns`,
`synthesizeKRunResults`, `calculateGrade`, `evaluateEnsembleOnClient`,
`synthesizeResults`, `parseEvaluationResponse`).

The JavaScript source is shallowly embedded as executable Lean definitions:

* JSON decoding (`JSON.parse` plus the dynamic field accesses the code
  performs on the decoded object) is abstracted as a decoder
  `Jp : String → Option EvalPayload`; `none` models every input on which the
  code's `try` block would throw (parse error or a subsequent dynamic type
  error), `some p` models a decode that reaches the `return` normally.
* JavaScript truthiness defaults (`x || d`) are modelled for numbers
  (`0` falsy), strings (`""` falsy) and arrays (always truthy).
* `Math.round` is `⌊x + 1/2⌋`, computed exactly on rationals `num/den`.
* Absent object fields are `Option.none`; fields the code writes on some
  return paths but not others are `Option`-typed in the envelope.
* Network calls are oracles passed in as functions (`Nat → Except String
  String` for the retried single evaluation, per-service results for the
  ensemble); creating a promise for a provider call is recorded as an
  issued request, matching the eager dispatch of `fetch`.
-/

/-! ## Elementary string helpers (kernel-computable models of JS string ops) -/

/-- Model of JavaScript `String.prototype.trim` on the character list. -/
def trimChars (l : List Char) : List Char :=
  ((l.dropWhile Char.isWhitespace).reverse.dropWhile Char.isWhitespace).reverse

/-- Model of JavaScript `s.trim()`. -/
def jsTrim (s : String) : String :=
  ⟨trimChars s.data⟩

/-- Model of JavaScript `s.substring(0, n)`. -/
def jsTake (n : Nat) (s : String) : String :=
  ⟨s.data.take n⟩

/-- Split a character list at the first occurrence of `sep`, returning the
text before it and the text after it, or `none` when `sep` does not occur. -/
def splitAtSeq (sep : List Char) : List Char → Option (List Char × List Char)
  | [] => if sep.isEmpty then some ([], []) else none
  | c :: cs =>
    if sep.isPrefixOf (c :: cs) then some ([], (c :: cs).drop sep.length)
    else
      match splitAtSeq sep cs with
      | some (b, a) => some (c :: b, a)
      | none => none

/-- The fenced-block delimiter searched for by the regex in
`parseEvaluationResponse` and `synthesizeResults`. -/
def fenceStr : String := "```"

/-- The optional language tag allowed right after the opening delimiter. -/
def fenceTag : String := "json"

/-- Model of the regex `/```(?:json)?\s*([\s\S]*?)```/`: the interior of the
first fenced block when one exists, otherwise the whole text. -/
def extractInner (s : String) : String :=
  match splitAtSeq fenceStr.data s.data with
  | none => s
  | some (_, rest) =>
    match splitAtSeq fenceStr.data rest with
    | none => s
    | some (inner, _) =>
      ⟨if fenceTag.data.isPrefixOf inner then inner.drop fenceTag.length else inner⟩

/-- The string handed to the JSON decoder: fenced-block interior (or the
whole response), trimmed — `jsonStr` in `parseEvaluationResponse`. -/
def extractJsonStr (s : String) : String :=
  jsTrim (extractInner s)

/-! ## JS-semantics helpers -/

/-- JavaScript `x || d` for an optionally-present number: `0` is falsy. -/
def jsOrInt (o : Option Int) (d : Int) : Int :=
  match o with
  | some n => if n = 0 then d else n
  | none => d

/-- JavaScript `x || d` for an optionally-present string: `""` is falsy. -/
def jsOrStr (o : Option String) (d : String) : String :=
  match o with
  | some s => if s = "" then d else s
  | none => d

/-- JavaScript `a || b` for two optionally-present strings, keeping the
possibly-absent result (used before a `.filter(Boolean)`). -/
def jsStrOr (a b : Option String) : Option String :=
  match a with
  | some s => if s = "" then b else some s
  | none => b

/-- JavaScript `.filter(Boolean)` on one optionally-present string. -/
def optTruthyFilter (o : Option String) : Option String :=
  match o with
  | some s => if s = "" then none else some s
  | none => none

/-- JavaScript `x || fallback` for a detail list: an array (even empty) is
truthy, an absent value falls through to the nested value and then to `[]`. -/
def detailList (top nested : Option (List String)) : List String :=
  match top with
  | some l => l
  | none => nested.getD []

/-- Floor division of integers, also for a negative denominator. -/
def floorDiv (num den : Int) : Int :=
  if 0 ≤ den then num / den else (-num) / (-den)

/-- Exact model of JavaScript `Math.round(num / den)`:
`⌊num/den + 1/2⌋ = ⌊(2·num + den) / (2·den)⌋`. -/
def jsRoundDiv (num den : Int) : Int :=
  floorDiv (2 * num + den) (2 * den)

/-- Model of `[...new Set(xs)]`: deduplication keeping first occurrences. -/
def dedupFirst (l : List String) : List String :=
  l.foldl (fun acc x => if acc.contains x then acc else acc ++ [x]) []

/-- Model of `xs.sort((a, b) => b.length - a.length)[0] || ''`: the first
string of maximal length (stable descending sort), `""` on an empty list. -/
def longestFirst (l : List String) : String :=
  l.foldl (fun best s => if best.length < s.length then s else best) ""

/-- Model of `Math.min(...scores)` on a nonempty list (`0` when empty,
a case the callers never reach). -/
def listMinI : List Int → Int
  | [] => 0
  | x :: xs => xs.foldl min x

/-- Model of `Math.max(...scores)` on a nonempty list. -/
def listMaxI : List Int → Int
  | [] => 0
  | x :: xs => xs.foldl max x

/-! ## Data model -/

/-- One rubric criterion (`rubric.criteria[i]`); only `id` and `name` are
read by the orchestration core. -/
structure Criterion where
  id : String
  name : String
  weight : Int
  levels : List (Int × String)
deriving Repr, DecidableEq

/-- A rubric: an ordered sequence of criteria. -/
structure Rubric where
  name : String
  criteria : List Criterion
deriving Repr, DecidableEq

/-- The nested `details.details` object a detail entry may carry. -/
structure DetailsNested where
  strengths : Option (List String)
  weaknesses : Option (List String)
  improvement : Option (List String)
  evidence : Option String
deriving Repr, DecidableEq

/-- A `details` object attached to a criteria entry (collected by
`synthesizeKRunResults`; never produced by `parseEvaluationResponse`). -/
structure JsDetails where
  strengths : Option (List String)
  weaknesses : Option (List String)
  improvement : Option (List String)
  evidence : Option String
  details : Option DetailsNested
deriving Repr, DecidableEq

/-- One entry of `criteriaScores` in a result envelope. Fields that some
producing code path leaves absent are `Option`-typed. -/
structure CriterionScore where
  criterionId : Option String
  name : String
  score : Int
  maxScore : Int
  percentage : Option Int
  evidence : Option String
  strengths : Option String
  weaknesses : Option String
  improvement : Option String
  feedback : Option String
  details : Option JsDetails
deriving Repr, DecidableEq

/-- The `evaluationMeta` reliability block emitted by K-run synthesis. -/
structure EvaluationMeta where
  runs : Nat
  scoreMin : Int
  scoreMax : Int
  variance : Int
deriving Repr, DecidableEq

/-- A Result Envelope as produced by the core. `qualitativeEvaluation` is
written by the parser paths, `qualitative` and `evaluationMeta` only by the
K-run synthesizer. -/
structure Envelope where
  totalScore : Int
  grade : String
  criteriaScores : List CriterionScore
  characteristics : List String
  qualitativeEvaluation : Option String
  qualitative : Option (List String)
  suggestions : List String
  studentRecordDraft : Option String
  evaluationMeta : Option EvaluationMeta
deriving Repr, DecidableEq

/-- One entry of `criteriaScores` as found in the decoded JSON payload;
every field may be absent. -/
structure PayloadCriterion where
  criterionId : Option String
  name : Option String
  score : Option Int
  maxScore : Option Int
  percentage : Option Int
  evidence : Option String
  strengths : Option String
  weaknesses : Option String
  improvement : Option String
  feedback : Option String
deriving Repr, DecidableEq

/-- The decoded JSON object an AI response may carry; every field may be
absent. -/
structure EvalPayload where
  totalScore : Option Int
  grade : Option String
  criteriaScores : Option (List PayloadCriterion)
  characteristics : Option (List String)
  qualitativeEvaluation : Option String
  suggestions : Option (List String)
  studentRecordDraft : Option String
deriving Repr, DecidableEq

/-- Abstract JSON decoder: `none` models a `JSON.parse` (or subsequent
dynamic access) throw inside the parser's `try` block. -/
abbrev Jp := String → Option EvalPayload

/-! ## calculateGrade (source lines 251–261) -/

/-- `calculateGrade(score)` from the source. -/
def calculateGrade (score : Int) : String :=
  if score ≥ 95 then "A+"
  else if score ≥ 90 then "A"
  else if score ≥ 85 then "B+"
  else if score ≥ 80 then "B"
  else if score ≥ 75 then "C+"
  else if score ≥ 70 then "C"
  else if score ≥ 65 then "D+"
  else if score ≥ 60 then "D"
  else "F"

/-- Modelled from the spec: the fixed threshold table of §3
(≥95→A+, ≥90→A, ≥85→B+, ≥80→B, ≥75→C+, ≥70→C, ≥65→D+, ≥60→D, else F),
written independently of the code for the refinement comparison in C3. -/
def specGradeTable (totalScore : Int) : String :=
  if 95 ≤ totalScore then "A+"
  else if 90 ≤ totalScore then "A"
  else if 85 ≤ totalScore then "B+"
  else if 80 ≤ totalScore then "B"
  else if 75 ≤ totalScore then "C+"
  else if 70 ≤ totalScore then "C"
  else if 65 ≤ totalScore then "D+"
  else if 60 ≤ totalScore then "D"
  else "F"

/-! ## parseEvaluationResponse (source lines 609–681) -/

/-- The fixed placeholder written into `evidence` when the payload supplies
neither `evidence` nor `feedback`. -/
def noEvidenceMsg : String := "근거가 제공되지 않았습니다."

/-- The fixed placeholder written into `improvement` when absent. -/
def noImprovementMsg : String := "추가적인 개선 제안이 없습니다."

/-- The fixed could-not-parse placeholder of the degraded envelope. -/
def cannotParseMsg : String := "평가 결과를 파싱할 수 없습니다."

/-- Field-wise normalization of one payload criteria entry
(source lines 630–653). -/
def normalizeCriterion (cs : PayloadCriterion) : CriterionScore :=
  let safeScore := jsOrInt cs.score 0
  let safeMax := jsOrInt cs.maxScore 5
  let calculatedPercentage := jsRoundDiv (safeScore * 100) safeMax
  { criterionId := some (jsOrStr cs.criterionId "")
    name := jsOrStr cs.name ""
    score := safeScore
    maxScore := safeMax
    percentage := some (match cs.percentage with
      | some p => p
      | none => calculatedPercentage)
    evidence := some (jsOrStr cs.evidence (jsOrStr cs.feedback noEvidenceMsg))
    strengths := some (jsOrStr cs.strengths "")
    weaknesses := some (jsOrStr cs.weaknesses "")
    improvement := some (jsOrStr cs.improvement noImprovementMsg)
    feedback := some (jsOrStr cs.feedback "")
    details := none }

/-- The envelope built on a successful decode (source lines 627–658). -/
def normalizeEnvelope (p : EvalPayload) : Envelope :=
  { totalScore := jsOrInt p.totalScore 0
    grade := jsOrStr p.grade "N/A"
    criteriaScores := (p.criteriaScores.getD []).map normalizeCriterion
    characteristics := p.characteristics.getD []
    qualitativeEvaluation := some (jsOrStr p.qualitativeEvaluation "")
    qualitative := none
    suggestions := p.suggestions.getD []
    studentRecordDraft := some (jsOrStr p.studentRecordDraft "")
    evaluationMeta := none }

/-- The degraded envelope built when decoding fails
(source lines 664–679). -/
def degradedEnvelope (response : String) (rubric : Rubric) : Envelope :=
  { totalScore := 0
    grade := "N/A"
    criteriaScores := rubric.criteria.map (fun c =>
      { criterionId := some c.id
        name := c.name
        score := 0
        maxScore := 5
        percentage := some 0
        evidence := none
        strengths := none
        weaknesses := none
        improvement := none
        feedback := some cannotParseMsg
        details := none })
    characteristics := ["평가 결과 파싱 오류"]
    qualitativeEvaluation := some
      ("AI 응답을 파싱하는 중 오류가 발생했습니다.\n\n원본 응답:\n" ++ jsTake 500 response ++ "...")
    qualitative := none
    suggestions := ["다시 평가를 시도해 주세요."]
    studentRecordDraft := some ""
    evaluationMeta := none }

/-- `parseEvaluationResponse(response, rubric)` (source lines 609–681): the
fenced block (or the whole text) is trimmed and decoded; an empty string or
any throw inside the `try` block yields the degraded envelope. -/
def parseEvaluationResponse (jp : Jp) (response : String) (rubric : Rubric) : Envelope :=
  let jsonStr := extractJsonStr response
  if jsonStr = "" then degradedEnvelope response rubric
  else
    match jp jsonStr with
    | some p => normalizeEnvelope p
    | none => degradedEnvelope response rubric

/-! ## synthesizeKRunResults (source lines 156–246) -/

/-- The per-name accumulator `criteriaScoresMap[name]`: the spread first
occurrence plus `scoreSum`, `count` and `allDetails`. -/
structure SynthAccum where
  base : CriterionScore
  scoreSum : Int
  count : Nat
  allDetails : List JsDetails
deriving Repr, DecidableEq

/-- The accumulator created when a name is first seen
(`{...cs, scoreSum: 0, count: 0, allDetails: []}`). -/
def initAccum (cs : CriterionScore) : SynthAccum :=
  ⟨cs, 0, 0, []⟩

/-- One `forEach` step on an existing accumulator: add the score, bump the
count, and push `cs.details` when present. -/
def stepAccum (cs : CriterionScore) (a : SynthAccum) : SynthAccum :=
  ⟨a.base, a.scoreSum + cs.score, a.count + 1,
    a.allDetails ++ (match cs.details with | some d => [d] | none => [])⟩

/-- Insert one criteria entry into the insertion-ordered name map
(JS object keyed by `cs.name`). -/
def insertCS : List (String × SynthAccum) → CriterionScore → List (String × SynthAccum)
  | [], cs => [(cs.name, stepAccum cs (initAccum cs))]
  | (k, a) :: rest, cs =>
    if k = cs.name then (k, stepAccum cs a) :: rest
    else (k, a) :: insertCS rest cs

/-- `criteriaScoresMap` after the two nested `forEach` loops
(source lines 169–186). -/
def buildMap (results : List Envelope) : List (String × SynthAccum) :=
  results.foldl (fun m r => r.criteriaScores.foldl insertCS m) []

/-- One output entry of the K-run consensus (source lines 188–214). -/
def synthCriterion (a : SynthAccum) : CriterionScore :=
  let allStrengths := a.allDetails.flatMap
    (fun d => detailList d.strengths (d.details.bind (fun n => n.strengths)))
  let allWeaknesses := a.allDetails.flatMap
    (fun d => detailList d.weaknesses (d.details.bind (fun n => n.weaknesses)))
  let allImprovements := a.allDetails.flatMap
    (fun d => detailList d.improvement (d.details.bind (fun n => n.improvement)))
  let allEvidence := a.allDetails.filterMap
    (fun d => optTruthyFilter (jsStrOr d.evidence (d.details.bind (fun n => n.evidence))))
  { criterionId := none
    name := a.base.name
    score := jsRoundDiv a.scoreSum (a.count : Int)
    maxScore := a.base.maxScore
    percentage := none
    evidence := some (longestFirst allEvidence)
    strengths := some (String.intercalate "\n" ((dedupFirst allStrengths).take 2))
    weaknesses := some (String.intercalate "\n" ((dedupFirst allWeaknesses).take 2))
    improvement := some (String.intercalate "\n" ((dedupFirst allImprovements).take 2))
    feedback := none
    details := a.allDetails.head? }

/-- `synthesizeKRunResults(results)` (source lines 156–246). -/
def synthesizeKRunResults (results : List Envelope) : Envelope :=
  let n := results.length
  let scores := results.map (fun r => r.totalScore)
  let avgScore := jsRoundDiv scores.sum (n : Int)
  let minScore := listMinI scores
  let maxScore := listMaxI scores
  { totalScore := avgScore
    grade := calculateGrade avgScore
    criteriaScores := (buildMap results).map (fun p => synthCriterion p.2)
    characteristics := (dedupFirst (results.flatMap (fun r => r.characteristics))).take 5
    qualitativeEvaluation := none
    qualitative := some (match results with
      | [] => []
      | r :: _ => r.qualitative.getD [])
    suggestions := (dedupFirst (results.flatMap (fun r => r.suggestions))).take 4
    studentRecordDraft := some (longestFirst (results.map (fun r => jsOrStr r.studentRecordDraft "")))
    evaluationMeta := some ⟨n, minScore, maxScore, maxScore - minScore⟩ }

/-! ## evaluateWithKRuns (source lines 95–121) -/

/-- The error thrown when all K runs fail. -/
def allRunsFailedMsg : String := "모든 평가 시도가 실패했습니다."

/-- The per-slot outcomes after the `Promise.all`: each run's raw response
parses to an envelope, a rejected run is recorded as `none`
(source lines 98–111). `runResults` is the outcome oracle of the `runs`
concurrent `singleEvaluation` calls, in dispatch order. -/
def kRunSlots (runResults : List (Except String String)) (jp : Jp) (rubric : Rubric) :
    List (Option Envelope) :=
  runResults.map (fun r =>
    match r with
    | .ok resp => some (parseEvaluationResponse jp resp rubric)
    | .error _ => none)

/-- `evaluateWithKRuns` (source lines 95–121): synthesize the successful
subset, or fail when it is empty. -/
def evaluateWithKRuns (runResults : List (Except String String)) (jp : Jp) (rubric : Rubric) :
    Except String Envelope :=
  let successfulResults := (kRunSlots runResults jp rubric).filterMap id
  if successfulResults.isEmpty then .error allRunsFailedMsg
  else .ok (synthesizeKRunResults successfulResults)

/-! ## evaluateChat, single-run path (source lines 38–90) -/

/-- The aggregate error message thrown when the proxy fallback also fails
(source line 83). -/
def aggregateFailMsg (directErr proxyErr : String) : String :=
  "평가 실패 (재시도 2회 포함): " ++ directErr ++
    " (Server fallback also failed: " ++ proxyErr ++ ")"

/-- The error text for an empty or whitespace-only successful response
(source line 52). -/
def emptyResponseMsg : String := "AI returned empty response"

/-- The error recorded for one attempt's outcome: the thrown transport
error, or the empty-response error for a blank success. -/
def attemptErrMsg (r : Except String String) : String :=
  match r with
  | .ok _ => emptyResponseMsg
  | .error e => e

/-- One attempt fails when the call rejects or resolves to a blank string. -/
def attemptFails (r : Except String String) : Prop :=
  match r with
  | .ok s => jsTrim s = ""
  | .error _ => True

instance (r : Except String String) : Decidable (attemptFails r) := by
  unfold attemptFails
  cases r <;> infer_instance

/-- The retry loop of `evaluateChat` (source lines 42–87). `A i` is the
outcome of the `singleEvaluation` call of attempt `i`, `proxy` the outcome
of the `callServerProxy` fallback. `fuel` counts the attempts still
available including the current one; the entry point supplies `3` attempts
(`MAX_RETRIES = 2`), so `fuel = 1` is the last attempt, on which the
fallback (or the final `throw lastError`) runs. -/
def evalChatGo (A : Nat → Except String String) (proxy : Except String String)
    (useServerSide : Bool) (jp : Jp) (rubric : Rubric) : Nat → Nat → Except String Envelope
  | 0, _ => .error ""
  | fuel + 1, i =>
    let onFail (e : String) : Except String Envelope :=
      if fuel = 0 then
        if useServerSide then .error e
        else
          match proxy with
          | .ok presp => .ok (parseEvaluationResponse jp presp rubric)
          | .error se => .error (aggregateFailMsg e se)
      else evalChatGo A proxy useServerSide jp rubric fuel (i + 1)
    match A i with
    | .ok response =>
      if jsTrim response = "" then onFail emptyResponseMsg
      else .ok (parseEvaluationResponse jp response rubric)
    | .error e => onFail e

/-- The single-run path of `evaluateChat` (source lines 38–90): up to 3
direct attempts, then — unless the caller already opted into server-side
dispatch — exactly one proxy fallback. -/
def evaluateChatSingleRun (A : Nat → Except String String) (proxy : Except String String)
    (useServerSide : Bool) (jp : Jp) (rubric : Rubric) : Except String Envelope :=
  evalChatGo A proxy useServerSide jp rubric 3 0

/-! ## Ensemble executor and cross-provider synthesizer
(source lines 486–543 and 548–604) -/

/-- What `synthesizeResults` returns: the raw first text when no input
parses, otherwise the stringified consensus object. -/
inductive SynthOutput where
  | raw (s : String)
  | obj (p : EvalPayload)
deriving Repr, DecidableEq

/-- The `validResults` list of `synthesizeResults` (source lines 549–563):
each text's fenced block is decoded, keeping objects whose `totalScore`
is present. -/
def ensembleValid (jp : Jp) (texts : List String) : List EvalPayload :=
  texts.filterMap (fun t =>
    match jp (extractJsonStr t) with
    | some p => if p.totalScore.isSome then some p else none
    | none => none)

/-- One consensus criteria entry of the ensemble synthesizer
(source lines 578–600): the base entry at index `idx`, its score replaced by
the index-wise rounded average and its narrative fields by joined
non-falsy values. -/
def synthPayloadCriterion (validResults : List EvalPayload) (criterion : PayloadCriterion)
    (idx : Nat) : PayloadCriterion :=
  let count := (validResults.length : Int)
  let sum := (validResults.map (fun r =>
    match (r.criteriaScores.getD [])[idx]? with
    | some c => jsOrInt c.score 0
    | none => 0)).sum
  let avgScore := jsRoundDiv sum count
  let combinedStrengths := String.intercalate " / "
    (validResults.filterMap (fun r => optTruthyFilter ((r.criteriaScores.getD [])[idx]?.bind
      (fun c => c.strengths))))
  let combinedWeaknesses := String.intercalate "\n"
    (validResults.filterMap (fun r => optTruthyFilter ((r.criteriaScores.getD [])[idx]?.bind
      (fun c => c.weaknesses))))
  let combinedImprovement := String.intercalate "\n"
    (validResults.filterMap (fun r => optTruthyFilter ((r.criteriaScores.getD [])[idx]?.bind
      (fun c => c.improvement))))
  let combinedEvidence := String.intercalate "\n"
    (validResults.filterMap (fun r => optTruthyFilter ((r.criteriaScores.getD [])[idx]?.bind
      (fun c => c.evidence))))
  { criterion with
    score := some avgScore
    strengths := some combinedStrengths
    weaknesses := some combinedWeaknesses
    improvement := some combinedImprovement
    evidence := some combinedEvidence }

/-- `synthesizeResults(texts)` (source lines 548–604). The JS function
stringifies the consensus object; `SynthOutput.obj` stands for that
stringified object. A `TypeError` escapes it when the first valid result
has no `criteriaScores` array, or when some other valid result lacks one
while the first's is nonempty (the `r.criteriaScores[idx]` accesses). -/
def synthesizeResults (jp : Jp) (texts : List String) : Except String SynthOutput :=
  match ensembleValid jp texts with
  | [] => .ok (.raw (match texts.head? with
      | some t => if t = "" then "\x7b\x7d" else t
      | none => "\x7b\x7d"))
  | base :: _ =>
    let validResults := ensembleValid jp texts
    match base.criteriaScores with
    | none => .error "TypeError: cannot read criteriaScores of the first valid result"
    | some baseCriteria =>
      if baseCriteria ≠ [] ∧ ¬ validResults.all (fun r => r.criteriaScores.isSome) then
        .error "TypeError: cannot index criteriaScores of a valid result"
      else
        .ok (.obj { base with
          totalScore := some (jsRoundDiv
            ((validResults.map (fun r => jsOrInt r.totalScore 0)).sum)
            (validResults.length : Int))
          qualitativeEvaluation := some (String.intercalate "\n\n---\n\n"
            (validResults.enum.map (fun pr =>
              "[의견 " ++ toString (pr.1 + 1) ++ "]\n" ++ (pr.2.qualitativeEvaluation.getD "undefined"))))
          characteristics := some (dedupFirst
            (validResults.flatMap (fun r => r.characteristics.getD [])))
          suggestions := some (dedupFirst
            (validResults.flatMap (fun r => r.suggestions.getD [])))
          criteriaScores := some (baseCriteria.enum.map (fun pc =>
            synthPayloadCriterion validResults pc.2 pc.1)) })

/-- Client-held API keys; `none` or `""` means no usable credential. -/
structure ApiKeys where
  gemini : Option String
  openai : Option String
  claude : Option String
deriving Repr, DecidableEq

/-- Per-service enable flags; an absent flag defaults to enabled
(`enabledServices?.x ?? true`). -/
structure EnabledServices where
  gemini : Option Bool
  openai : Option Bool
  claude : Option Bool
deriving Repr, DecidableEq

/-- JS truthiness of a credential (`!!apiKeys.x`). -/
def keyPresent : Option String → Bool
  | some s => s ≠ ""
  | none => false

/-- The service names whose calls are dispatched (`serviceNames`,
source lines 509–520): enabled and holding a present credential. -/
def qualifyingServices (keys : ApiKeys) (en : EnabledServices) : List String :=
  (if en.gemini.getD true ∧ keyPresent keys.gemini then ["Gemini"] else []) ++
  (if en.openai.getD true ∧ keyPresent keys.openai then ["OpenAI"] else []) ++
  (if en.claude.getD true ∧ keyPresent keys.claude then ["Claude"] else [])

/-- The quorum error thrown when fewer than two services qualify
(source lines 522–524). -/
def quorumErrorMsg (serviceNames : List String) : String :=
  let joined := String.intercalate ", " serviceNames
  "앙상블 평가에는 최소 2개 이상의 AI 서비스가 필요합니다. (현재 활성: " ++
    (if joined = "" then "없음" else joined) ++ ")"

/-- The error thrown when every dispatched ensemble call rejects
(source lines 534–540). -/
def allModelsFailedMsg (errors : List String) : String :=
  "모든 AI 모델이 응답하지 않았습니다. (Errors: " ++
    String.intercalate ", " (errors.map (fun e => if e = "" then "Unknown error" else e)) ++ ")"

deriving instance DecidableEq for Except

/-- The observable outcome of one ensemble invocation: which provider
requests were initiated (a promise created by `callXxxAPI(...)` starts its
`fetch` at once), and the returned value or thrown error. -/
structure EnsembleOutcome where
  issuedCalls : List String
  result : Except String SynthOutput
deriving Repr, DecidableEq

/-- `evaluateEnsembleOnClient` (source lines 486–543). `call` is the
outcome oracle of one provider request, keyed by the service name. The
promises for every qualifying service are created — and their requests
issued — before the quorum check on `promises.length`. -/
def evaluateEnsembleOnClient (call : String → Except String String) (jp : Jp)
    (keys : ApiKeys) (en : EnabledServices) : EnsembleOutcome :=
  let issued := qualifyingServices keys en
  if issued.length < 2 then
    { issuedCalls := issued, result := .error (quorumErrorMsg issued) }
  else
    let settled := issued.map call
    let successes := settled.filterMap (fun r =>
      match r with | .ok v => some v | .error _ => none)
    if successes.isEmpty then
      { issuedCalls := issued
        result := .error (allModelsFailedMsg (settled.filterMap (fun r =>
          match r with | .error e => some e | .ok _ => none))) }
    else
      { issuedCalls := issued, result := synthesizeResults jp successes }

/-! ## Predicates and spec-side characterizations -/

/-- Structural well-formedness guaranteed of every envelope the parser
returns (both the success and the degraded path): a non-empty grade, the
narrative summary fields present, and per-entry a non-zero divisor
`maxScore`, a present `percentage` and a present `feedback`. -/
def wellFormedEnvelope (e : Envelope) : Prop :=
  e.grade ≠ "" ∧
  e.qualitativeEvaluation.isSome ∧
  e.studentRecordDraft.isSome ∧
  ∀ c ∈ e.criteriaScores, c.maxScore ≠ 0 ∧ c.percentage.isSome ∧ c.feedback.isSome

instance (e : Envelope) : Decidable (wellFormedEnvelope e) := by
  unfold wellFormedEnvelope
  infer_instance

/-- The shape of every `parseEvaluationResponse` output that matters to the
K-run synthesizer: no `qualitative` key and no `details` key on any
criteria entry. -/
def parserShaped (e : Envelope) : Prop :=
  e.qualitative = none ∧ ∀ c ∈ e.criteriaScores, c.details = none

instance (e : Envelope) : Decidable (parserShaped e) := by
  unfold parserShaped
  infer_instance

/-- All criteria entries of all K-run inputs in order
(`results.flatMap(r => r.criteriaScores)`). -/
def kRunEntries (results : List Envelope) : List CriterionScore :=
  results.flatMap (fun r => r.criteriaScores)

/-- Specification of the per-name accumulator: the first entry carrying the
name is the base, the scores of all entries carrying it are summed. -/
def accumOf : List CriterionScore → Option SynthAccum
  | [] => none
  | c :: cs =>
    some ⟨c, ((c :: cs).map (fun x => x.score)).sum, (c :: cs).length,
      (c :: cs).filterMap (fun x => x.details)⟩

/-- Association-list lookup in the insertion-ordered name map. -/
def lookupAcc : List (String × SynthAccum) → String → Option SynthAccum
  | [], _ => none
  | (k, a) :: rest, key => if k = key then some a else lookupAcc rest key

/-- The grade field of a stringified ensemble consensus object. -/
def synthObjGrade (r : Except String SynthOutput) : Option String :=
  match r with
  | .ok (.obj p) => p.grade
  | _ => none

/-- The totalScore field of a stringified ensemble consensus object. -/
def synthObjTotal (r : Except String SynthOutput) : Option Int :=
  match r with
  | .ok (.obj p) => p.totalScore
  | _ => none

/-- The per-criterion scores of a stringified ensemble consensus object. -/
def synthObjScores (r : Except String SynthOutput) : Option (List (Option Int)) :=
  match r with
  | .ok (.obj p) => some ((p.criteriaScores.getD []).map (fun c => c.score))
  | _ => none

/-! ## Concrete instances for counterexamples and witnesses -/

/-- A rubric with a single criterion. -/
def rubricOne : Rubric :=
  ⟨"기본 루브릭", [⟨"criterion_1", "질문의 구체성", 100, [(5, "매우 구체적")]⟩]⟩

/-- A raw response whose JSON decodes to an object containing only
`totalScore` (no `criteriaScores`). -/
def respOnlyTotal : String := "\x7b\"totalScore\":10\x7d"

/-- The payload `JSON.parse` yields on `respOnlyTotal`. -/
def payloadOnlyTotal : EvalPayload :=
  ⟨some 10, none, none, none, none, none, none⟩

/-- Decoder oracle behaving as `JSON.parse` does on `respOnlyTotal`. -/
def jpOnlyTotal : Jp := fun s =>
  if s = respOnlyTotal then some payloadOnlyTotal else none

/-- A raw response reporting `totalScore` 90 with self-declared grade F. -/
def respGradeF : String := "\x7b\"totalScore\":90,\"grade\":\"F\"\x7d"

/-- The payload `JSON.parse` yields on `respGradeF`. -/
def payloadGradeF : EvalPayload :=
  ⟨some 90, some "F", none, none, none, none, none⟩

/-- Decoder oracle behaving as `JSON.parse` does on `respGradeF`. -/
def jpGradeF : Jp := fun s =>
  if s = respGradeF then some payloadGradeF else none

/-- Decoder oracle on which every decode fails. -/
def jpNone : Jp := fun _ => none

/-- A payload criteria entry with the given name and score. -/
def mkPC (name : String) (score : Int) : PayloadCriterion :=
  ⟨none, some name, some score, some 5, none, none, none, none, none, none⟩

/-- First ensemble provider text. -/
def textEns1 : String := "ENSEMBLE_RESPONSE_1"

/-- Second ensemble provider text. -/
def textEns2 : String := "ENSEMBLE_RESPONSE_2"

/-- First ensemble payload: score 90, grade A, criteria (정확성 2, 창의성 4). -/
def payloadEns1 : EvalPayload :=
  ⟨some 90, some "A", some [mkPC "정확성" 2, mkPC "창의성" 4], none, none, none, none⟩

/-- Second ensemble payload: score 50, grade F, criteria in the opposite
order (창의성 0, 정확성 2). -/
def payloadEns2 : EvalPayload :=
  ⟨some 50, some "F", some [mkPC "창의성" 0, mkPC "정확성" 2], none, none, none, none⟩

/-- Decoder oracle for the two ensemble texts. -/
def jpEns : Jp := fun s =>
  if s = textEns1 then some payloadEns1
  else if s = textEns2 then some payloadEns2
  else none

/-- Credentials with only a Gemini key present. -/
def keysGeminiOnly : ApiKeys := ⟨some "G-KEY", none, none⟩

/-- Service flags left at their defaults (all enabled). -/
def enAllDefault : EnabledServices := ⟨none, none, none⟩

/-- A provider-call oracle on which every request rejects. -/
def callAllFail : String → Except String String := fun _ => .error "provider down"

/-- A single-run attempt oracle on which every direct attempt rejects. -/
def attemptsAllFail : Nat → Except String String := fun _ => .error "network down"

/-- A single-run attempt oracle failing twice, then succeeding with a
non-blank decodable response. -/
def attemptsThirdOk : Nat → Except String String := fun i =>
  if i < 2 then .error "network down" else .ok respOnlyTotal

/-- K-run outcome oracle: three runs of which exactly the second succeeds. -/
def kRunOneSuccess : List (Except String String) :=
  [.error "timeout", .ok respOnlyTotal, .error "rate limited"]

/-- K-run outcome oracle: three runs, all failed. -/
def kRunAllFail : List (Except String String) :=
  [.error "timeout", .error "quota", .error "rate limited"]

/-- Whether a settled promise fulfilled (`Boolean`-style view of one run's
outcome, used to state the success predicates decidably). -/
def exceptIsOk (r : Except String String) : Bool :=
  match r with
  | .ok _ => true
  | .error _ => false

/-- The name and score of each entry of a stringified ensemble consensus
object. -/
def synthObjNameScores (r : Except String SynthOutput) :
    Option (List (Option String × Option Int)) :=
  match r with
  | .ok (.obj p) => some ((p.criteriaScores.getD []).map (fun c => (c.name, c.score)))
  | _ => none

/-- The consensus object computed by the ensemble synthesizer on the two
concrete provider texts, first text first. -/
def ensOut : EvalPayload :=
  match synthesizeResults jpEns [textEns1, textEns2] with
  | .ok (.obj p) => p
  | _ => ⟨none, none, none, none, none, none, none⟩

/-- The consensus object computed on the same two texts presented in the
opposite order. -/
def ensOutSwap : EvalPayload :=
  match synthesizeResults jpEns [textEns2, textEns1] with
  | .ok (.obj p) => p
  | _ => ⟨none, none, none, none, none, none, none⟩


/-! ## Basic lemmas -/

/-- Rounding a mean of one value returns the value. -/
theorem jsRoundDiv_one (n : Int) : jsRoundDiv n 1 = n := by
  simp only [jsRoundDiv, floorDiv]
  norm_num
  omega

/-- A truthiness default with a non-empty fallback is non-empty. -/
theorem jsOrStr_ne_empty (o : Option String) (d : String) (hd : d ≠ "") :
    jsOrStr o d ≠ "" := by
  unfold jsOrStr
  cases o with
  | none => exact hd
  | some s =>
    by_cases hs : s = "" <;> simp [hs, hd]

/-- A truthiness default with a non-zero fallback is non-zero. -/
theorem jsOrInt_ne_zero (o : Option Int) (d : Int) (hd : d ≠ 0) :
    jsOrInt o d ≠ 0 := by
  unfold jsOrInt
  cases o with
  | none => exact hd
  | some n =>
    by_cases hn : n = 0 <;> simp [hn, hd]

/-- The parser returns the degraded envelope whenever the decode fails. -/
theorem parse_eq_degraded_of_none (jp : Jp) (response : String) (rubric : Rubric)
    (h : jp (extractJsonStr response) = none) :
    parseEvaluationResponse jp response rubric = degradedEnvelope response rubric := by
  unfold parseEvaluationResponse
  by_cases he : extractJsonStr response = "" <;> simp [he, h]

/-- The parser returns the degraded envelope on a blank extracted string. -/
theorem parse_eq_degraded_of_empty (jp : Jp) (response : String) (rubric : Rubric)
    (h : extractJsonStr response = "") :
    parseEvaluationResponse jp response rubric = degradedEnvelope response rubric := by
  unfold parseEvaluationResponse
  simp [h]

/-- The parser returns the field-normalized envelope on a successful
decode of a non-blank extracted string. -/
theorem parse_eq_normalize (jp : Jp) (response : String) (rubric : Rubric)
    (p : EvalPayload) (hne : extractJsonStr response ≠ "")
    (h : jp (extractJsonStr response) = some p) :
    parseEvaluationResponse jp response rubric = normalizeEnvelope p := by
  unfold parseEvaluationResponse
  simp [hne, h]

/-- The success-path envelope is structurally well-formed. -/
theorem wellFormed_normalizeEnvelope (p : EvalPayload) :
    wellFormedEnvelope (normalizeEnvelope p) := by
  unfold wellFormedEnvelope normalizeEnvelope
  refine ⟨jsOrStr_ne_empty _ _ (by decide), rfl, rfl, ?_⟩
  intro c hc
  simp only [List.mem_map] at hc
  obtain ⟨cs, _, rfl⟩ := hc
  exact ⟨jsOrInt_ne_zero _ _ (by decide), rfl, rfl⟩

/-- The degraded envelope is structurally well-formed. -/
theorem wellFormed_degradedEnvelope (response : String) (rubric : Rubric) :
    wellFormedEnvelope (degradedEnvelope response rubric) := by
  unfold wellFormedEnvelope degradedEnvelope
  refine ⟨show ("N/A" : String) ≠ "" by decide, rfl, rfl, ?_⟩
  intro c hc
  simp only [List.mem_map] at hc
  obtain ⟨cr, _, rfl⟩ := hc
  exact ⟨show (5 : Int) ≠ 0 by decide, rfl, rfl⟩


theorem buildMap_eq_foldl (results : List Envelope) :
    buildMap results = (kRunEntries results).foldl insertCS [] := by
  suffices h : ∀ m, results.foldl (fun m r => r.criteriaScores.foldl insertCS m) m
      = (kRunEntries results).foldl insertCS m from h []
  induction results with
  | nil => intro m; rfl
  | cons r rest ih =>
    intro m
    simp only [List.foldl_cons, kRunEntries, List.flatMap_cons, List.foldl_append]
    exact ih _

theorem map_fst_insertCS (m : List (String × SynthAccum)) (cs : CriterionScore) :
    (insertCS m cs).map Prod.fst =
      if (m.map Prod.fst).contains cs.name then m.map Prod.fst
      else m.map Prod.fst ++ [cs.name] := by
  induction m with
  | nil => simp [insertCS]
  | cons p rest ih =>
    obtain ⟨k, a⟩ := p
    by_cases hk : k = cs.name
    · subst hk
      simp [insertCS]
    · have hb : (cs.name == k) = false := by
        simp [Ne.symm hk]
      simp only [insertCS, if_neg hk, List.map_cons, List.contains_cons, hb, Bool.false_or, ih]
      cases hcb : (rest.map Prod.fst).contains cs.name <;> simp [hcb]

theorem map_fst_foldl_insertCS (l : List CriterionScore) :
    ∀ m : List (String × SynthAccum),
      (l.foldl insertCS m).map Prod.fst =
        (l.map (fun c => c.name)).foldl
          (fun acc x => if acc.contains x then acc else acc ++ [x]) (m.map Prod.fst) := by
  induction l with
  | nil => intro m; rfl
  | cons c rest ih =>
    intro m
    simp only [List.foldl_cons, List.map_cons]
    rw [ih, map_fst_insertCS]

theorem buildMap_keys (results : List Envelope) :
    (buildMap results).map Prod.fst
      = dedupFirst ((kRunEntries results).map (fun c => c.name)) := by
  rw [buildMap_eq_foldl, map_fst_foldl_insertCS]
  rfl

theorem mem_dedupFirst_foldl (l : List String) :
    ∀ (acc : List String) (x : String),
      (x ∈ l.foldl (fun acc x => if acc.contains x then acc else acc ++ [x]) acc)
        ↔ (x ∈ acc ∨ x ∈ l) := by
  induction l with
  | nil => simp
  | cons a rest ih =>
    intro acc x
    simp only [List.foldl_cons]
    rw [ih]
    cases hcb : acc.contains a
    · simp only [hcb, Bool.false_eq_true, if_false, List.mem_append,
        List.mem_singleton, List.mem_cons]
      tauto
    · have ha : a ∈ acc := List.elem_iff.mp hcb
      simp only [hcb, if_true, List.mem_cons]
      constructor
      · rintro (hx | hx)
        · exact Or.inl hx
        · exact Or.inr (Or.inr hx)
      · rintro (hx | rfl | hx)
        · exact Or.inl hx
        · exact Or.inl ha
        · exact Or.inr hx

theorem mem_dedupFirst (l : List String) (x : String) :
    x ∈ dedupFirst l ↔ x ∈ l := by
  unfold dedupFirst
  rw [mem_dedupFirst_foldl]
  simp

theorem dedupFirst_foldl_nodup (l : List String) :
    ∀ (acc : List String), acc.Nodup →
      (l.foldl (fun acc x => if acc.contains x then acc else acc ++ [x]) acc).Nodup := by
  induction l with
  | nil => intro acc h; exact h
  | cons a rest ih =>
    intro acc hacc
    simp only [List.foldl_cons]
    cases hcb : acc.contains a
    · simp only [hcb, Bool.false_eq_true, if_false]
      refine ih _ (List.nodup_append.mpr ⟨hacc, List.nodup_singleton a, ?_⟩)
      intro x hx hxa
      rw [List.mem_singleton] at hxa
      subst hxa
      have h2 : acc.contains x = true := List.elem_iff.mpr hx
      rw [hcb] at h2
      exact Bool.false_ne_true h2
    · simp only [hcb, if_true, if_pos]
      exact ih acc hacc

theorem dedupFirst_nodup (l : List String) : (dedupFirst l).Nodup :=
  dedupFirst_foldl_nodup l [] List.nodup_nil

theorem lookupAcc_insertCS (m : List (String × SynthAccum)) (cs : CriterionScore) (k : String) :
    lookupAcc (insertCS m cs) k =
      if k = cs.name then some (stepAccum cs ((lookupAcc m k).getD (initAccum cs)))
      else lookupAcc m k := by
  induction m with
  | nil =>
    simp only [insertCS, lookupAcc]
    by_cases h : cs.name = k
    · simp only [if_pos h, if_pos h.symm]
      rfl
    · simp only [if_neg h, if_neg (fun hk => h (Eq.symm hk))]
  | cons p rest ih =>
    obtain ⟨k2, a⟩ := p
    by_cases hk2 : k2 = cs.name
    · simp only [insertCS, if_pos hk2, lookupAcc]
      by_cases h : k2 = k
      · have hkc : k = cs.name := h.symm.trans hk2
        simp only [if_pos h, if_pos hkc]
        rfl
      · have hkc : ¬ k = cs.name := fun hc => h (hk2.trans hc.symm)
        simp only [if_neg h, if_neg hkc]
    · simp only [insertCS, if_neg hk2, lookupAcc]
      by_cases h : k2 = k
      · have hkc : ¬ k = cs.name := fun hc => hk2 (h.trans hc)
        simp only [if_pos h, if_neg hkc]
      · simp only [if_neg h]
        exact ih

theorem accumOf_append_one (fl : List CriterionScore) (x : CriterionScore) :
    accumOf (fl ++ [x]) = some (stepAccum x ((accumOf fl).getD (initAccum x))) := by
  cases fl with
  | nil =>
    cases hd : x.details <;>
      simp [accumOf, stepAccum, initAccum, hd, List.filterMap]
  | cons c cs =>
    cases hd : x.details <;>
      cases hcd : c.details <;>
        simp [accumOf, stepAccum, List.map_append, List.sum_append,
          List.filterMap_append, List.filterMap, hd, hcd] <;>
          omega

theorem lookupAcc_foldl (l : List CriterionScore) (k : String) :
    lookupAcc (l.foldl insertCS []) k
      = accumOf (l.filter (fun c => c.name == k)) := by
  induction l using List.reverseRecOn with
  | nil => rfl
  | append_singleton fl x ih =>
    rw [List.foldl_append, List.foldl_cons, List.foldl_nil, lookupAcc_insertCS,
      List.filter_append]
    by_cases h : k = x.name
    · have hx : List.filter (fun c => c.name == k) [x] = [x] := by
        simp [List.filter, h]
      rw [hx, accumOf_append_one, ih, if_pos h]
    · have hx : List.filter (fun c => c.name == k) [x] = [] := by
        simp only [List.filter]
        have : (x.name == k) = false := by
          simp only [beq_eq_false_iff_ne, ne_eq]
          exact fun hk => h (Eq.symm hk)
        rw [this]
      rw [hx, List.append_nil, ih, if_neg h]

theorem lookupAcc_of_mem (m : List (String × SynthAccum)) (k : String) (a : SynthAccum)
    (hnd : (m.map Prod.fst).Nodup) (hmem : (k, a) ∈ m) : lookupAcc m k = some a := by
  induction m with
  | nil => cases hmem
  | cons p rest ih =>
    obtain ⟨k2, a2⟩ := p
    simp only [List.map_cons, List.nodup_cons] at hnd
    rcases List.mem_cons.mp hmem with heq | hmem2
    · obtain ⟨h1, h2⟩ := Prod.mk.injEq k2 a2 k a ▸ heq.symm
      subst h1
      subst h2
      simp [lookupAcc]
    · have hne : ¬ k2 = k := by
        intro hkk
        subst hkk
        exact hnd.1 (List.mem_map.mpr ⟨(k2, a), hmem2, rfl⟩)
      simp only [lookupAcc, if_neg hne]
      exact ih hnd.2 hmem2

theorem buildMap_mem_char (results : List Envelope) (k : String) (a : SynthAccum)
    (hmem : (k, a) ∈ buildMap results) :
    accumOf ((kRunEntries results).filter (fun c => c.name == k)) = some a := by
  have hnd : ((buildMap results).map Prod.fst).Nodup := by
    rw [buildMap_keys]
    exact dedupFirst_nodup _
  have hl := lookupAcc_of_mem _ _ _ hnd hmem
  rw [buildMap_eq_foldl, lookupAcc_foldl] at hl
  exact hl

theorem accumOf_char (l : List CriterionScore) (a : SynthAccum) (h : accumOf l = some a) :
    l ≠ [] ∧ a.base ∈ l ∧ a.scoreSum = (l.map (fun x => x.score)).sum ∧
      a.count = l.length ∧ a.allDetails = l.filterMap (fun x => x.details) := by
  cases l with
  | nil => cases h
  | cons c cs =>
    simp only [accumOf, Option.some.injEq] at h
    subst h
    exact ⟨by simp, by simp, rfl, rfl, rfl⟩

theorem accumOf_filter_name (l : List CriterionScore) (k : String) (a : SynthAccum)
    (h : accumOf (l.filter (fun c => c.name == k)) = some a) : a.base.name = k := by
  obtain ⟨-, hb, -, -, -⟩ := accumOf_char _ _ h
  exact beq_iff_eq.mp (List.mem_filter.mp hb).2

theorem synthKRun_entry_char (results : List Envelope) (c : CriterionScore)
    (hc : c ∈ (synthesizeKRunResults results).criteriaScores) :
    ∃ a, accumOf ((kRunEntries results).filter (fun x => x.name == c.name)) = some a ∧
      c = synthCriterion a := by
  simp only [synthesizeKRunResults, List.mem_map] at hc
  obtain ⟨⟨k, a⟩, hmem, rfl⟩ := hc
  have hch := buildMap_mem_char results k a hmem
  have hbase : a.base.name = k := accumOf_filter_name _ _ _ hch
  have hname : (synthCriterion a).name = k := by
    simpa [synthCriterion] using hbase
  rw [hname]
  exact ⟨a, hch, rfl⟩

theorem synthKRun_score_char (results : List Envelope) (c : CriterionScore)
    (hc : c ∈ (synthesizeKRunResults results).criteriaScores) :
    c.score = jsRoundDiv
      ((((kRunEntries results).filter (fun x => x.name == c.name)).map (fun x => x.score)).sum)
      (((kRunEntries results).filter (fun x => x.name == c.name)).length : Int) := by
  obtain ⟨a, hch, rfl⟩ := synthKRun_entry_char results c hc
  obtain ⟨-, -, hsum, hcount, -⟩ := accumOf_char _ _ hch
  have hscore : (synthCriterion a).score = jsRoundDiv a.scoreSum (a.count : Int) := by
    simp [synthCriterion]
  rw [hscore, hsum, hcount]

theorem synthKRun_names (results : List Envelope) :
    (synthesizeKRunResults results).criteriaScores.map (fun c => c.name)
      = dedupFirst ((kRunEntries results).map (fun c => c.name)) := by
  rw [← buildMap_keys]
  simp only [synthesizeKRunResults, List.map_map]
  apply List.map_congr_left
  intro p hp
  obtain ⟨k, a⟩ := p
  have hch := buildMap_mem_char results k a hp
  have hb := accumOf_filter_name _ _ _ hch
  simpa [synthCriterion] using hb

theorem synthKRun_totalScore (results : List Envelope) :
    (synthesizeKRunResults results).totalScore
      = jsRoundDiv ((results.map (fun r => r.totalScore)).sum) (results.length : Int) := rfl

theorem synthKRun_grade (results : List Envelope) :
    (synthesizeKRunResults results).grade
      = calculateGrade (synthesizeKRunResults results).totalScore := rfl

theorem kRunEntries_perm {l1 l2 : List Envelope} (h : l1.Perm l2) :
    (kRunEntries l1).Perm (kRunEntries l2) :=
  h.flatMap_right _

theorem synthKRun_totalScore_perm {l1 l2 : List Envelope} (h : l1.Perm l2) :
    (synthesizeKRunResults l1).totalScore = (synthesizeKRunResults l2).totalScore := by
  rw [synthKRun_totalScore, synthKRun_totalScore,
    (h.map (fun r => r.totalScore)).sum_eq, h.length_eq]

theorem synthKRun_grade_perm {l1 l2 : List Envelope} (h : l1.Perm l2) :
    (synthesizeKRunResults l1).grade = (synthesizeKRunResults l2).grade := by
  rw [synthKRun_grade, synthKRun_grade, synthKRun_totalScore_perm h]

theorem synthKRun_score_perm {l1 l2 : List Envelope} (h : l1.Perm l2)
    (c1 c2 : CriterionScore) (hc1 : c1 ∈ (synthesizeKRunResults l1).criteriaScores)
    (hc2 : c2 ∈ (synthesizeKRunResults l2).criteriaScores) (hn : c1.name = c2.name) :
    c1.score = c2.score := by
  rw [synthKRun_score_char _ _ hc1, synthKRun_score_char _ _ hc2, hn]
  have hp := ((kRunEntries_perm h).filter (fun x => x.name == c2.name))
  rw [(hp.map (fun x => x.score)).sum_eq, hp.length_eq]

theorem synthesizeResults_obj_char (jp : Jp) (texts : List String) (out : EvalPayload)
    (h : synthesizeResults jp texts = .ok (.obj out)) :
    ∃ base rest, ensembleValid jp texts = base :: rest ∧
      out.grade = base.grade ∧
      out.totalScore = some (jsRoundDiv
        (((base :: rest).map (fun r => jsOrInt r.totalScore 0)).sum)
        (((base :: rest).length : Int))) ∧
      ∃ bc, base.criteriaScores = some bc ∧
        out.criteriaScores = some (bc.enum.map (fun pc =>
          synthPayloadCriterion (base :: rest) pc.2 pc.1)) := by
  cases hv : ensembleValid jp texts with
  | nil =>
    simp only [synthesizeResults, hv] at h
    simp at h
  | cons base rest =>
    simp only [synthesizeResults, hv] at h
    cases hbc : base.criteriaScores with
    | none =>
      simp only [hbc] at h
      simp at h
    | some bc =>
      simp only [hbc] at h
      by_cases hcond : bc ≠ [] ∧ ¬ ((base :: rest).all (fun r => r.criteriaScores.isSome)) = true
      · rw [if_pos hcond] at h
        simp at h
      · rw [if_neg hcond] at h
        simp only [Except.ok.injEq, SynthOutput.obj.injEq] at h
        subst h
        exact ⟨base, rest, rfl, rfl, rfl, bc, hbc, rfl⟩

theorem ensembleValid_perm (jp : Jp) {t1 t2 : List String} (h : t1.Perm t2) :
    (ensembleValid jp t1).Perm (ensembleValid jp t2) :=
  h.filterMap _

theorem ensembleTotal_perm (jp : Jp) {t1 t2 : List String} (h : t1.Perm t2)
    (out1 out2 : EvalPayload)
    (h1 : synthesizeResults jp t1 = .ok (.obj out1))
    (h2 : synthesizeResults jp t2 = .ok (.obj out2)) :
    out1.totalScore = out2.totalScore := by
  obtain ⟨b1, r1, hv1, -, ht1, -⟩ := synthesizeResults_obj_char _ _ _ h1
  obtain ⟨b2, r2, hv2, -, ht2, -⟩ := synthesizeResults_obj_char _ _ _ h2
  rw [ht1, ht2, ← hv1, ← hv2]
  have hp := ensembleValid_perm jp h
  rw [(hp.map (fun r => jsOrInt r.totalScore 0)).sum_eq, hp.length_eq]

theorem calculateGrade_eq_specGradeTable (s : Int) :
    calculateGrade s = specGradeTable s := rfl

theorem evalChatGo_step_fail (A : Nat → Except String String) (proxy : Except String String)
    (uss : Bool) (jp : Jp) (rubric : Rubric) (fuel i : Nat) (hf : attemptFails (A i)) :
    evalChatGo A proxy uss jp rubric (fuel + 2) i
      = evalChatGo A proxy uss jp rubric (fuel + 1) (i + 1) := by
  cases hA : A i with
  | ok s =>
    have hs : jsTrim s = "" := by
      rw [attemptFails.eq_def, hA] at hf
      exact hf
    simp [evalChatGo, hA, hs]
  | error e => simp [evalChatGo, hA]

theorem evalChatGo_last_fail (A : Nat → Except String String) (proxy : Except String String)
    (uss : Bool) (jp : Jp) (rubric : Rubric) (i : Nat) (hf : attemptFails (A i)) :
    evalChatGo A proxy uss jp rubric 1 i =
      if uss then .error (attemptErrMsg (A i))
      else match proxy with
        | .ok p => .ok (parseEvaluationResponse jp p rubric)
        | .error se => .error (aggregateFailMsg (attemptErrMsg (A i)) se) := by
  cases hA : A i with
  | ok s =>
    have hs : jsTrim s = "" := by
      rw [attemptFails.eq_def, hA] at hf
      exact hf
    simp [evalChatGo, hA, hs, attemptErrMsg]
  | error e => simp [evalChatGo, hA, attemptErrMsg]

theorem evalChatGo_ok (A : Nat → Except String String) (proxy : Except String String)
    (uss : Bool) (jp : Jp) (rubric : Rubric) (fuel i : Nat) (s : String)
    (hA : A i = .ok s) (hs : jsTrim s ≠ "") :
    evalChatGo A proxy uss jp rubric (fuel + 1) i
      = .ok (parseEvaluationResponse jp s rubric) := by
  simp [evalChatGo, hA, hs]

theorem filterMap_details_nil {l : List CriterionScore} (h : ∀ c ∈ l, c.details = none) :
    l.filterMap (fun x => x.details) = [] := by
  induction l with
  | nil => rfl
  | cons c cs ih =>
    simp [List.filterMap_cons, h c (by simp), ih (fun x hx => h x (by simp [hx]))]

theorem synthCriterion_no_details (a : SynthAccum) (h : a.allDetails = []) :
    (synthCriterion a).evidence = some "" ∧ (synthCriterion a).strengths = some "" ∧
    (synthCriterion a).weaknesses = some "" ∧ (synthCriterion a).improvement = some "" ∧
    (synthCriterion a).details = none := by
  refine ⟨?_, ?_, ?_, ?_, ?_⟩ <;>
    simp [synthCriterion, h, dedupFirst, longestFirst, String.intercalate]

/-! ## Claim theorems -/

/-- C1 counterexample: with a one-criterion rubric, a decodable response
whose payload has no `criteriaScores` yields an envelope with 0 entries
instead of 1, and the degraded envelope's entries carry no `strengths`
string at all — so the claimed invariant (exactly C entries, all four
narrative fields non-empty) fails on the code. -/
theorem c1_counterexample :
    (parseEvaluationResponse jpOnlyTotal respOnlyTotal rubricOne).criteriaScores.length = 0 ∧
    rubricOne.criteria.length = 1 ∧
    (parseEvaluationResponse jpOnlyTotal respOnlyTotal rubricOne).criteriaScores.length
      ≠ rubricOne.criteria.length ∧
    ∃ c ∈ (parseEvaluationResponse jpNone "no structured payload" rubricOne).criteriaScores,
      c.strengths = none := by
  decide

/-- C1 (amended): only the degraded envelope is guaranteed exactly C
criteria entries, and those entries carry only the fixed placeholder
`feedback` — their `evidence`, `strengths`, `weaknesses`, `improvement`
fields are absent; on a successful decode the envelope has one entry per
entry of the payload's own `criteriaScores` (not necessarily C), each with
non-empty `evidence` and `improvement`, while `strengths` and `weaknesses`
are present but default to the empty string. -/
theorem c1_amended (jp : Jp) (response : String) (rubric : Rubric) :
    ((degradedEnvelope response rubric).criteriaScores.length = rubric.criteria.length ∧
      ∀ c ∈ (degradedEnvelope response rubric).criteriaScores,
        c.evidence = none ∧ c.strengths = none ∧ c.weaknesses = none ∧
        c.improvement = none ∧ c.feedback = some cannotParseMsg) ∧
    (∀ p : EvalPayload, extractJsonStr response ≠ "" →
      jp (extractJsonStr response) = some p →
      parseEvaluationResponse jp response rubric = normalizeEnvelope p ∧
      (normalizeEnvelope p).criteriaScores.length = (p.criteriaScores.getD []).length ∧
      ∀ c ∈ (normalizeEnvelope p).criteriaScores,
        (∃ s, c.evidence = some s ∧ s ≠ "") ∧
        (∃ s, c.improvement = some s ∧ s ≠ "") ∧
        (∃ s, c.strengths = some s) ∧ (∃ s, c.weaknesses = some s)) := by
  constructor
  · constructor
    · simp [degradedEnvelope]
    · intro c hc
      simp only [degradedEnvelope, List.mem_map] at hc
      obtain ⟨cr, -, rfl⟩ := hc
      exact ⟨rfl, rfl, rfl, rfl, rfl⟩
  · intro p hne hj
    refine ⟨parse_eq_normalize jp response rubric p hne hj, by simp [normalizeEnvelope], ?_⟩
    intro c hc
    simp only [normalizeEnvelope, List.mem_map] at hc
    obtain ⟨cs, -, rfl⟩ := hc
    refine ⟨⟨_, rfl, ?_⟩, ⟨_, rfl, ?_⟩, ⟨_, rfl⟩, ⟨_, rfl⟩⟩
    · exact jsOrStr_ne_empty _ _ (jsOrStr_ne_empty _ _ (by decide))
    · exact jsOrStr_ne_empty _ _ (by decide)

/-- C1 amended witness: the success path and the degraded count at concrete
inputs. -/
theorem c1_amended_witness :
    parseEvaluationResponse jpOnlyTotal respOnlyTotal rubricOne
      = normalizeEnvelope payloadOnlyTotal ∧
    (degradedEnvelope "x" rubricOne).criteriaScores.length = 1 := by
  refine ⟨((c1_amended jpOnlyTotal respOnlyTotal rubricOne).2 payloadOnlyTotal
    (by decide) (by decide)).1, ?_⟩
  exact ((c1_amended jpOnlyTotal "x" rubricOne).1.1).trans (by decide)

/-- C2: the parser is total — for every decoder behavior, raw text and
rubric it returns a well-formed envelope, which is either the field-wise
normalization of a successfully decoded payload or the degraded envelope;
no error escapes its boundary (the return type is the envelope itself). -/
theorem c2_parser_total (jp : Jp) (response : String) (rubric : Rubric) :
    wellFormedEnvelope (parseEvaluationResponse jp response rubric) ∧
    ((∃ p, jp (extractJsonStr response) = some p ∧
        parseEvaluationResponse jp response rubric = normalizeEnvelope p) ∨
      parseEvaluationResponse jp response rubric = degradedEnvelope response rubric) := by
  by_cases he : extractJsonStr response = ""
  · rw [parse_eq_degraded_of_empty _ _ _ he]
    exact ⟨wellFormed_degradedEnvelope _ _, Or.inr rfl⟩
  · cases hj : jp (extractJsonStr response) with
    | none =>
      rw [parse_eq_degraded_of_none _ _ _ hj]
      exact ⟨wellFormed_degradedEnvelope _ _, Or.inr rfl⟩
    | some p =>
      rw [parse_eq_normalize _ _ _ p he hj]
      exact ⟨wellFormed_normalizeEnvelope _, Or.inl ⟨p, rfl, rfl⟩⟩

/-- C3 counterexample: a single-run success whose payload reports
totalScore 90 with grade "F" is returned verbatim — the envelope's grade is
"F" although the fixed threshold table maps 90 to "A", so grade is not the
claimed function of totalScore in every returned envelope. -/
theorem c3_counterexample :
    (parseEvaluationResponse jpGradeF respGradeF rubricOne).totalScore = 90 ∧
    (parseEvaluationResponse jpGradeF respGradeF rubricOne).grade = "F" ∧
    specGradeTable 90 = "A" ∧
    (parseEvaluationResponse jpGradeF respGradeF rubricOne).grade
      ≠ specGradeTable (parseEvaluationResponse jpGradeF respGradeF rubricOne).totalScore := by
  decide

/-- C3 (amended): `calculateGrade` does implement the claimed threshold
table, and the K-run consensus recomputes its grade from the averaged
totalScore; but a single-run envelope carries the payload-reported grade
(defaulting to "N/A", and "N/A" on the degraded path), and the ensemble
consensus carries the first valid input's grade unchanged. -/
theorem c3_amended :
    (∀ s : Int, calculateGrade s = specGradeTable s) ∧
    (∀ results : List Envelope,
      (synthesizeKRunResults results).grade
        = calculateGrade (synthesizeKRunResults results).totalScore) ∧
    (∀ (jp : Jp) (response : String) (rubric : Rubric) (p : EvalPayload),
      extractJsonStr response ≠ "" → jp (extractJsonStr response) = some p →
      (parseEvaluationResponse jp response rubric).grade = jsOrStr p.grade "N/A") ∧
    (∀ (response : String) (rubric : Rubric),
      (degradedEnvelope response rubric).grade = "N/A") ∧
    (∀ (jp : Jp) (texts : List String) (out : EvalPayload),
      synthesizeResults jp texts = .ok (.obj out) →
      ∃ base rest, ensembleValid jp texts = base :: rest ∧ out.grade = base.grade) := by
  refine ⟨calculateGrade_eq_specGradeTable, synthKRun_grade, ?_, fun _ _ => rfl, ?_⟩
  · intro jp response rubric p hne hj
    rw [parse_eq_normalize _ _ _ p hne hj]
    rfl
  · intro jp texts out h
    obtain ⟨b, r, hv, hg, -, -⟩ := synthesizeResults_obj_char _ _ _ h
    exact ⟨b, r, hv, hg⟩

/-- C3 amended witness: the single-run, K-run and ensemble grade behaviors
at concrete inputs. -/
theorem c3_amended_witness :
    (parseEvaluationResponse jpGradeF respGradeF rubricOne).grade = "F" ∧
    (synthesizeKRunResults [parseEvaluationResponse jpGradeF respGradeF rubricOne]).grade
      = calculateGrade
        (synthesizeKRunResults [parseEvaluationResponse jpGradeF respGradeF rubricOne]).totalScore ∧
    ∃ base rest, ensembleValid jpEns [textEns1, textEns2] = base :: rest ∧
      ensOut.grade = base.grade := by
  refine ⟨?_, c3_amended.2.1 _, c3_amended.2.2.2.2 jpEns [textEns1, textEns2] ensOut (by decide)⟩
  rw [c3_amended.2.2.1 jpGradeF respGradeF rubricOne payloadGradeF (by decide) (by decide)]
  decide

/-- C4: the single-run evaluator makes up to 3 direct attempts, a blank
(whitespace-only) success counting as a failure; when all 3 fail and the
caller has not opted into server-side dispatch, exactly one proxy attempt
follows, whose parsed envelope is returned on success, while a proxy
failure surfaces the aggregate of the last direct error and the proxy
error; with server-side dispatch already chosen the last direct error
surfaces; and a non-blank success at attempt 0 or at the final attempt
returns its parsed envelope directly. -/
theorem c4_single_run_retry_fallback (A : Nat → Except String String)
    (proxy : Except String String) (jp : Jp) (rubric : Rubric) :
    (attemptFails (A 0) → attemptFails (A 1) → attemptFails (A 2) →
      ((∀ p, proxy = .ok p →
          evaluateChatSingleRun A proxy false jp rubric
            = .ok (parseEvaluationResponse jp p rubric)) ∧
        (∀ se, proxy = .error se →
          evaluateChatSingleRun A proxy false jp rubric
            = .error (aggregateFailMsg (attemptErrMsg (A 2)) se)) ∧
        evaluateChatSingleRun A proxy true jp rubric = .error (attemptErrMsg (A 2)))) ∧
    (∀ s, attemptFails (A 0) → attemptFails (A 1) → A 2 = .ok s → jsTrim s ≠ "" →
      ∀ uss, evaluateChatSingleRun A proxy uss jp rubric
        = .ok (parseEvaluationResponse jp s rubric)) ∧
    (∀ s, A 0 = .ok s → jsTrim s ≠ "" →
      ∀ uss, evaluateChatSingleRun A proxy uss jp rubric
        = .ok (parseEvaluationResponse jp s rubric)) := by
  refine ⟨?_, ?_, ?_⟩
  · intro h0 h1 h2
    have key : ∀ uss, evaluateChatSingleRun A proxy uss jp rubric
        = if uss then .error (attemptErrMsg (A 2))
          else match proxy with
            | .ok p => .ok (parseEvaluationResponse jp p rubric)
            | .error se => .error (aggregateFailMsg (attemptErrMsg (A 2)) se) := by
      intro uss
      have s1 := evalChatGo_step_fail A proxy uss jp rubric 1 0 h0
      have s2 := evalChatGo_step_fail A proxy uss jp rubric 0 1 h1
      have s3 := evalChatGo_last_fail A proxy uss jp rubric 2 h2
      norm_num at s1 s2
      exact (s1.trans (s2.trans s3))
    refine ⟨?_, ?_, ?_⟩
    · intro p hp
      subst hp
      simpa using key false
    · intro se hse
      subst hse
      simpa using key false
    · simpa using key true
  · intro s h0 h1 hA2 hs uss
    have s1 := evalChatGo_step_fail A proxy uss jp rubric 1 0 h0
    have s2 := evalChatGo_step_fail A proxy uss jp rubric 0 1 h1
    have s3 := evalChatGo_ok A proxy uss jp rubric 0 2 s hA2 hs
    norm_num at s1 s2 s3
    exact (s1.trans (s2.trans s3))
  · intro s hA0 hs uss
    have := evalChatGo_ok A proxy uss jp rubric 2 0 s hA0 hs
    norm_num at this
    exact this

/-- C4 witness: all direct attempts fail, proxy succeeds or fails; and a
third-attempt success, at concrete oracles. -/
theorem c4_single_run_retry_fallback_witness :
    evaluateChatSingleRun attemptsAllFail (.ok respOnlyTotal) false jpOnlyTotal rubricOne
      = .ok (parseEvaluationResponse jpOnlyTotal respOnlyTotal rubricOne) ∧
    evaluateChatSingleRun attemptsAllFail (.error "proxy 500") false jpOnlyTotal rubricOne
      = .error (aggregateFailMsg "network down" "proxy 500") ∧
    evaluateChatSingleRun attemptsAllFail (.error "proxy 500") true jpOnlyTotal rubricOne
      = .error "network down" ∧
    evaluateChatSingleRun attemptsThirdOk (.error "p") false jpOnlyTotal rubricOne
      = .ok (parseEvaluationResponse jpOnlyTotal respOnlyTotal rubricOne) := by
  have h1 := c4_single_run_retry_fallback attemptsAllFail (.ok respOnlyTotal) jpOnlyTotal rubricOne
  have h2 := c4_single_run_retry_fallback attemptsAllFail (.error "proxy 500") jpOnlyTotal rubricOne
  have h3 := c4_single_run_retry_fallback attemptsThirdOk (.error "p") jpOnlyTotal rubricOne
  refine ⟨(h1.1 (by decide) (by decide) (by decide)).1 respOnlyTotal rfl, ?_, ?_, ?_⟩
  · have := (h2.1 (by decide) (by decide) (by decide)).2.1 "proxy 500" rfl
    simpa [attemptsAllFail, attemptErrMsg] using this
  · have := (h2.1 (by decide) (by decide) (by decide)).2.2
    simpa [attemptsAllFail, attemptErrMsg] using this
  · exact h3.2.1 respOnlyTotal (by decide) (by decide) (by decide) (by decide) false

/-- C5: in a K-run batch each rejected run occupies a `none` slot; with at
least one fulfilled run the call returns the synthesis of exactly the
successful subset, and with exactly one fulfilled run the consensus
totalScore equals that run's; when every run rejects the evaluation fails
with the all-runs-failed error and no envelope. -/
theorem c5_krun_failure_tolerance (runResults : List (Except String String)) (jp : Jp)
    (rubric : Rubric) :
    ((∃ r ∈ runResults, exceptIsOk r = true) →
      evaluateWithKRuns runResults jp rubric
        = .ok (synthesizeKRunResults ((kRunSlots runResults jp rubric).filterMap id))) ∧
    ((∀ r ∈ runResults, exceptIsOk r = false) →
      evaluateWithKRuns runResults jp rubric = .error allRunsFailedMsg) ∧
    (∀ (pre post : List (Except String String)) (s : String),
      runResults = pre ++ .ok s :: post →
      (∀ r ∈ pre, exceptIsOk r = false) → (∀ r ∈ post, exceptIsOk r = false) →
      evaluateWithKRuns runResults jp rubric
        = .ok (synthesizeKRunResults [parseEvaluationResponse jp s rubric]) ∧
      (synthesizeKRunResults [parseEvaluationResponse jp s rubric]).totalScore
        = (parseEvaluationResponse jp s rubric).totalScore) := by
  have hslotnone : ∀ (l : List (Except String String)), (∀ r ∈ l, exceptIsOk r = false) →
      (kRunSlots l jp rubric).filterMap id = [] := by
    intro l hl
    rw [List.filterMap_eq_nil_iff]
    intro o ho
    simp only [kRunSlots, List.mem_map] at ho
    obtain ⟨r, hr, rfl⟩ := ho
    cases hcr : r with
    | ok s =>
      have := hl r hr
      rw [hcr] at this
      simp [exceptIsOk] at this
    | error e => simp [id]
  refine ⟨?_, ?_, ?_⟩
  · rintro ⟨r, hr, hok⟩
    cases hcr : r with
    | error e => rw [hcr] at hok; simp [exceptIsOk] at hok
    | ok s =>
      subst hcr
      have hmem : some (parseEvaluationResponse jp s rubric) ∈ kRunSlots runResults jp rubric := by
        simp only [kRunSlots, List.mem_map]
        exact ⟨.ok s, hr, rfl⟩
      have hne : (kRunSlots runResults jp rubric).filterMap id ≠ [] := by
        intro hnil
        rw [List.filterMap_eq_nil_iff] at hnil
        exact (by simp : (some (parseEvaluationResponse jp s rubric) : Option Envelope) ≠ none)
          (hnil _ hmem)
      unfold evaluateWithKRuns
      rw [if_neg (by simpa [List.isEmpty_iff] using hne)]
  · intro hall
    unfold evaluateWithKRuns
    rw [if_pos (by simp [List.isEmpty_iff, hslotnone runResults hall])]
  · intro pre post s hsplit hpre hpost
    have hone : (kRunSlots runResults jp rubric).filterMap id
        = [parseEvaluationResponse jp s rubric] := by
      subst hsplit
      simp only [kRunSlots, List.map_append, List.map_cons, List.filterMap_append,
        List.filterMap_cons]
      have h1 := hslotnone pre hpre
      have h2 := hslotnone post hpost
      simp only [kRunSlots] at h1 h2
      rw [h1, h2]
      rfl
    constructor
    · unfold evaluateWithKRuns
      rw [if_neg (by simp [List.isEmpty_iff, hone]), hone]
    · rw [synthKRun_totalScore]
      simp [jsRoundDiv_one]

/-- C5 witness: three runs with exactly one fulfilled, and three with all
rejected, at concrete oracles. -/
theorem c5_krun_failure_tolerance_witness :
    evaluateWithKRuns kRunOneSuccess jpOnlyTotal rubricOne
      = .ok (synthesizeKRunResults [parseEvaluationResponse jpOnlyTotal respOnlyTotal rubricOne]) ∧
    (synthesizeKRunResults [parseEvaluationResponse jpOnlyTotal respOnlyTotal rubricOne]).totalScore
      = (parseEvaluationResponse jpOnlyTotal respOnlyTotal rubricOne).totalScore ∧
    evaluateWithKRuns kRunAllFail jpOnlyTotal rubricOne = .error allRunsFailedMsg := by
  have h := c5_krun_failure_tolerance kRunOneSuccess jpOnlyTotal rubricOne
  have h2 := (c5_krun_failure_tolerance kRunAllFail jpOnlyTotal rubricOne).2.1 (by decide)
  have h3 := h.2.2 [.error "timeout"] [.error "rate limited"] respOnlyTotal (by decide)
    (by decide) (by decide)
  exact ⟨h3.1, h3.2, h2⟩

/-- C6 counterexample: two valid ensemble inputs (scores 90/50, grades
A/F, two criteria listed in opposite orders). The consensus totalScore 70
is the rounded mean, but the grade stays "A" (the first input's) instead
of the recomputed "C", and the entry named 정확성 gets score 1 — the
index-wise average of 2 and 0 — although the by-name average of its scores
(2 and 2) is 2. -/
theorem c6_counterexample :
    synthObjTotal (synthesizeResults jpEns [textEns1, textEns2]) = some 70 ∧
    synthObjGrade (synthesizeResults jpEns [textEns1, textEns2]) = some "A" ∧
    calculateGrade 70 = "C" ∧
    synthObjGrade (synthesizeResults jpEns [textEns1, textEns2])
      ≠ some (calculateGrade 70) ∧
    synthObjNameScores (synthesizeResults jpEns [textEns1, textEns2])
      = some [(some "정확성", some 1), (some "창의성", some 3)] ∧
    jsRoundDiv ((mkPC "정확성" 2).score.getD 0 + (mkPC "정확성" 2).score.getD 0) 2 = 2 ∧
    (1 : Int) ≠ 2 := by
  decide

/-- C6 (amended): the K-run synthesizer satisfies the claim in full —
rounded-mean totalScore, grade recomputed from it, criteria matched by
name with the first-occurrence ordering authoritative; the ensemble
synthesizer averages totalScore the same way but copies the first valid
input's grade unchanged and matches criteria by list index against the
first valid input's criteria. -/
theorem c6_amended :
    (∀ results : List Envelope,
      (synthesizeKRunResults results).totalScore
        = jsRoundDiv ((results.map (fun r => r.totalScore)).sum) (results.length : Int) ∧
      (synthesizeKRunResults results).grade
        = calculateGrade (synthesizeKRunResults results).totalScore ∧
      (synthesizeKRunResults results).criteriaScores.map (fun c => c.name)
        = dedupFirst ((kRunEntries results).map (fun c => c.name)) ∧
      ∀ c ∈ (synthesizeKRunResults results).criteriaScores,
        c.score = jsRoundDiv
          ((((kRunEntries results).filter (fun x => x.name == c.name)).map
            (fun x => x.score)).sum)
          ((((kRunEntries results).filter (fun x => x.name == c.name)).length : Int))) ∧
    (∀ (jp : Jp) (texts : List String) (out : EvalPayload),
      synthesizeResults jp texts = .ok (.obj out) →
      ∃ base rest, ensembleValid jp texts = base :: rest ∧
        out.totalScore = some (jsRoundDiv
          (((base :: rest).map (fun r => jsOrInt r.totalScore 0)).sum)
          (((base :: rest).length : Int))) ∧
        out.grade = base.grade ∧
        ∃ bc, base.criteriaScores = some bc ∧
          out.criteriaScores = some (bc.enum.map (fun pc =>
            synthPayloadCriterion (base :: rest) pc.2 pc.1))) := by
  constructor
  · intro results
    exact ⟨synthKRun_totalScore results, synthKRun_grade results, synthKRun_names results,
      fun c hc => synthKRun_score_char results c hc⟩
  · intro jp texts out h
    obtain ⟨b, r, hv, hg, ht, hbc⟩ := synthesizeResults_obj_char _ _ _ h
    exact ⟨b, r, hv, ht, hg, hbc⟩

/-- C6 amended witness: the ensemble characterization at the two concrete
texts and the K-run grade recomputation at a concrete singleton. -/
theorem c6_amended_witness :
    (∃ base rest, ensembleValid jpEns [textEns1, textEns2] = base :: rest ∧
      ensOut.totalScore = some (jsRoundDiv
        (((base :: rest).map (fun r => jsOrInt r.totalScore 0)).sum)
        (((base :: rest).length : Int))) ∧
      ensOut.grade = base.grade ∧
      ∃ bc, base.criteriaScores = some bc ∧
        ensOut.criteriaScores = some (bc.enum.map (fun pc =>
          synthPayloadCriterion (base :: rest) pc.2 pc.1))) ∧
    (synthesizeKRunResults [parseEvaluationResponse jpOnlyTotal respOnlyTotal rubricOne]).grade
      = calculateGrade
        (synthesizeKRunResults [parseEvaluationResponse jpOnlyTotal respOnlyTotal rubricOne]).totalScore := by
  exact ⟨c6_amended.2 jpEns [textEns1, textEns2] ensOut (by decide),
    (c6_amended.1 _).2.1⟩

/-- C7 counterexample: permuting the same two valid ensemble inputs flips
the consensus grade from "A" to "F" (it is copied from whichever valid
input comes first), so the synthesis is not order-independent as claimed. -/
theorem c7_counterexample :
    [textEns1, textEns2].Perm [textEns2, textEns1] ∧
    synthObjGrade (synthesizeResults jpEns [textEns1, textEns2]) = some "A" ∧
    synthObjGrade (synthesizeResults jpEns [textEns2, textEns1]) = some "F" ∧
    synthObjGrade (synthesizeResults jpEns [textEns1, textEns2])
      ≠ synthObjGrade (synthesizeResults jpEns [textEns2, textEns1]) := by
  refine ⟨List.Perm.swap textEns2 textEns1 [], by decide, by decide, by decide⟩

/-- C7 (amended): the K-run consensus totalScore, grade and per-criterion
scores (matched by name) are invariant under any permutation of the input
envelopes; the ensemble consensus totalScore is likewise
permutation-invariant, but its grade follows the first valid input and can
change under permutation. -/
theorem c7_amended :
    (∀ l1 l2 : List Envelope, l1.Perm l2 →
      (synthesizeKRunResults l1).totalScore = (synthesizeKRunResults l2).totalScore ∧
      (synthesizeKRunResults l1).grade = (synthesizeKRunResults l2).grade ∧
      ∀ c1 ∈ (synthesizeKRunResults l1).criteriaScores,
        ∀ c2 ∈ (synthesizeKRunResults l2).criteriaScores,
          c1.name = c2.name → c1.score = c2.score) ∧
    (∀ (jp : Jp) (t1 t2 : List String), t1.Perm t2 →
      ∀ out1 out2, synthesizeResults jp t1 = .ok (.obj out1) →
        synthesizeResults jp t2 = .ok (.obj out2) →
        out1.totalScore = out2.totalScore) := by
  constructor
  · intro l1 l2 h
    exact ⟨synthKRun_totalScore_perm h, synthKRun_grade_perm h,
      fun c1 hc1 c2 hc2 hn => synthKRun_score_perm h c1 c2 hc1 hc2 hn⟩
  · intro jp t1 t2 h out1 out2 h1 h2
    exact ensembleTotal_perm jp h out1 out2 h1 h2

/-- C7 amended witness: permutation invariance at concrete inputs — the
two-envelope K-run consensus and the two-text ensemble consensus keep
their totalScore under a swap. -/
theorem c7_amended_witness :
    (synthesizeKRunResults [parseEvaluationResponse jpGradeF respGradeF rubricOne,
        parseEvaluationResponse jpOnlyTotal respOnlyTotal rubricOne]).totalScore
      = (synthesizeKRunResults [parseEvaluationResponse jpOnlyTotal respOnlyTotal rubricOne,
        parseEvaluationResponse jpGradeF respGradeF rubricOne]).totalScore ∧
    ensOut.totalScore = ensOutSwap.totalScore := by
  refine ⟨(c7_amended.1 _ _ (List.Perm.swap _ _ [])).1, ?_⟩
  exact c7_amended.2 jpEns [textEns1, textEns2] [textEns2, textEns1]
    (List.Perm.swap textEns2 textEns1 []) ensOut ensOutSwap (by decide) (by decide)

/-- C8 counterexample: with exactly one qualifying provider (an enabled
Gemini with a present key) the executor does fail with the quorum error
without consuming any response, but the request for that provider is
already initiated before the quorum check — the issued-call list is
["Gemini"], not empty as the claim requires. -/
theorem c8_counterexample :
    (qualifyingServices keysGeminiOnly enAllDefault).length = 1 ∧
    (evaluateEnsembleOnClient callAllFail jpNone keysGeminiOnly enAllDefault).issuedCalls
      = ["Gemini"] ∧
    (evaluateEnsembleOnClient callAllFail jpNone keysGeminiOnly enAllDefault).issuedCalls
      ≠ [] ∧
    (evaluateEnsembleOnClient callAllFail jpNone keysGeminiOnly enAllDefault).result
      = .error (quorumErrorMsg ["Gemini"]) := by
  decide

/-- C8 (amended): with fewer than two qualifying providers the executor
fails with the quorum error, never reaches synthesis and consumes no
provider response (the outcome is independent of the call oracle) — but
the requests for the at most one qualifying provider are still initiated
before the check. -/
theorem c8_amended (call : String → Except String String) (jp : Jp)
    (keys : ApiKeys) (en : EnabledServices)
    (h : (qualifyingServices keys en).length < 2) :
    (evaluateEnsembleOnClient call jp keys en).result
      = .error (quorumErrorMsg (qualifyingServices keys en)) ∧
    (evaluateEnsembleOnClient call jp keys en).issuedCalls = qualifyingServices keys en ∧
    (∀ call2, evaluateEnsembleOnClient call jp keys en
      = evaluateEnsembleOnClient call2 jp keys en) ∧
    (qualifyingServices keys en).length ≤ 1 := by
  unfold evaluateEnsembleOnClient
  rw [if_pos h]
  refine ⟨rfl, rfl, ?_, by omega⟩
  intro call2
  rw [if_pos h]

/-- C8 amended witness: the quorum failure with one qualifying provider at
concrete configuration. -/
theorem c8_amended_witness :
    (evaluateEnsembleOnClient callAllFail jpNone keysGeminiOnly enAllDefault).result
      = .error (quorumErrorMsg (qualifyingServices keysGeminiOnly enAllDefault)) ∧
    (evaluateEnsembleOnClient callAllFail jpNone keysGeminiOnly enAllDefault).issuedCalls
      = qualifyingServices keysGeminiOnly enAllDefault := by
  have h := c8_amended callAllFail jpNone keysGeminiOnly enAllDefault (by decide)
  exact ⟨h.1, h.2.1⟩

/-- C9: whenever decoding fails (or the extracted string is blank) the
parser returns the degraded envelope: totalScore 0, grade "N/A", one
criteria entry per rubric criterion each carrying the fixed
could-not-parse placeholder (score 0, maxScore 5, percentage 0), and a
qualitativeEvaluation embedding the first 500 characters of the raw
response. -/
theorem c9_degraded_envelope (jp : Jp) (response : String) (rubric : Rubric)
    (h : jp (extractJsonStr response) = none ∨ extractJsonStr response = "") :
    parseEvaluationResponse jp response rubric = degradedEnvelope response rubric ∧
    (degradedEnvelope response rubric).totalScore = 0 ∧
    (degradedEnvelope response rubric).grade = "N/A" ∧
    (degradedEnvelope response rubric).criteriaScores.length = rubric.criteria.length ∧
    (∀ c ∈ (degradedEnvelope response rubric).criteriaScores,
      c.score = 0 ∧ c.maxScore = 5 ∧ c.percentage = some 0 ∧
      c.feedback = some cannotParseMsg) ∧
    (degradedEnvelope response rubric).qualitativeEvaluation
      = some ("AI 응답을 파싱하는 중 오류가 발생했습니다.\n\n원본 응답:\n"
          ++ jsTake 500 response ++ "...") := by
  refine ⟨?_, rfl, rfl, by simp [degradedEnvelope], ?_, rfl⟩
  · cases h with
    | inl hj => exact parse_eq_degraded_of_none _ _ _ hj
    | inr he => exact parse_eq_degraded_of_empty _ _ _ he
  · intro c hc
    simp only [degradedEnvelope, List.mem_map] at hc
    obtain ⟨cr, -, rfl⟩ := hc
    exact ⟨rfl, rfl, rfl, rfl⟩

/-- C9 witness: the degraded envelope at a concrete undecodable response. -/
theorem c9_degraded_envelope_witness :
    parseEvaluationResponse jpNone "this is not JSON at all" rubricOne
      = degradedEnvelope "this is not JSON at all" rubricOne ∧
    (degradedEnvelope "this is not JSON at all" rubricOne).totalScore = 0 ∧
    (degradedEnvelope "this is not JSON at all" rubricOne).grade = "N/A" ∧
    (degradedEnvelope "this is not JSON at all" rubricOne).criteriaScores.length = 1 := by
  have h := c9_degraded_envelope jpNone "this is not JSON at all" rubricOne (Or.inl (by decide))
  exact ⟨h.1, h.2.1, h.2.2.1, h.2.2.2.1.trans (by decide)⟩

/-- C10: every parser output has no `qualitative` key and no `details` key
on its criteria entries; consequently a K-run consensus synthesized from
parser outputs has per-criterion evidence, strengths, weaknesses and
improvement all equal to the empty string, an absent per-criterion
`details`, a `qualitative` field equal to the empty list, and no
`qualitativeEvaluation` field at all. -/
theorem c10_krun_narrative_loss :
    (∀ (jp : Jp) (response : String) (rubric : Rubric),
      parserShaped (parseEvaluationResponse jp response rubric)) ∧
    (∀ results : List Envelope, results ≠ [] →
      (∀ e ∈ results, parserShaped e) →
      (synthesizeKRunResults results).qualitative = some [] ∧
      (synthesizeKRunResults results).qualitativeEvaluation = none ∧
      ∀ c ∈ (synthesizeKRunResults results).criteriaScores,
        c.evidence = some "" ∧ c.strengths = some "" ∧ c.weaknesses = some "" ∧
        c.improvement = some "" ∧ c.details = none) := by
  constructor
  · intro jp response rubric
    by_cases he : extractJsonStr response = ""
    · rw [parse_eq_degraded_of_empty _ _ _ he]
      refine ⟨rfl, ?_⟩
      intro c hc
      simp only [degradedEnvelope, List.mem_map] at hc
      obtain ⟨cr, -, rfl⟩ := hc
      rfl
    · cases hj : jp (extractJsonStr response) with
      | none =>
        rw [parse_eq_degraded_of_none _ _ _ hj]
        refine ⟨rfl, ?_⟩
        intro c hc
        simp only [degradedEnvelope, List.mem_map] at hc
        obtain ⟨cr, -, rfl⟩ := hc
        rfl
      | some p =>
        rw [parse_eq_normalize _ _ _ p he hj]
        refine ⟨rfl, ?_⟩
        intro c hc
        simp only [normalizeEnvelope, List.mem_map] at hc
        obtain ⟨cs, -, rfl⟩ := hc
        rfl
  · intro results hne hshape
    have hdet : ∀ c ∈ kRunEntries results, c.details = none := by
      intro c hc
      simp only [kRunEntries, List.mem_flatMap] at hc
      obtain ⟨r, hr, hcr⟩ := hc
      exact (hshape r hr).2 c hcr
    refine ⟨?_, rfl, ?_⟩
    · cases results with
      | nil => exact absurd rfl hne
      | cons r rest =>
        have hq : r.qualitative = none := (hshape r (by simp)).1
        simp [synthesizeKRunResults, hq]
    · intro c hc
      obtain ⟨a, hch, rfl⟩ := synthKRun_entry_char results c hc
      obtain ⟨-, -, -, -, hdets⟩ := accumOf_char _ _ hch
      have hnil : a.allDetails = [] := by
        rw [hdets]
        exact filterMap_details_nil (fun x hx => hdet x (List.mem_of_mem_filter hx))
      exact synthCriterion_no_details a hnil

/-- C10 witness: a singleton K-run batch of one parser output at concrete
inputs. -/
theorem c10_krun_narrative_loss_witness :
    parserShaped (parseEvaluationResponse jpOnlyTotal respOnlyTotal rubricOne) ∧
    (synthesizeKRunResults [parseEvaluationResponse jpNone "plain prose" rubricOne]).qualitative
      = some [] ∧
    (synthesizeKRunResults [parseEvaluationResponse jpNone "plain prose" rubricOne]).qualitativeEvaluation
      = none := by
  have h2 := c10_krun_narrative_loss.2
    [parseEvaluationResponse jpNone "plain prose" rubricOne] (by decide) (by decide)
  exact ⟨c10_krun_narrative_loss.1 jpOnlyTotal respOnlyTotal rubricOne, h2.1, h2.2.1⟩
